import Mathlib

/-!
Shallow embedding of the AudioCaptureX library (audio_capture.hpp and
audio_capture.cpp from paulocoutinhox/audio-capturex).

Modelling conventions.  The cubeb backend and the drwav encoder are
modelled as environments supplying the results of the external calls an
operation makes.  Raw pointers (cubeb context, cubeb stream, device id,
the stored std::function) are modelled as Bool presence flags.  The
32-bit float samples are modelled as exact rationals; the byte
accumulator std::vector<char> recordedAudio only ever receives whole
float values (dataCallback appends sample_count floats reinterpreted as
bytes) and is only ever read back as floats (saveRecordedAudio computes
numSamples = size / sizeof float), so it is modelled as the list of the
float samples it stores, with recordedBytes giving its byte length
(sizeof float = 4).  Console logging has no observable effect on the
data model and is dropped.  The WAV filename extension normalisation in
saveRecordedAudio is pure string massaging that no claim concerns and is
not modelled; the interaction with the encoder is.
-/

namespace AudioCaptureX

/-- Environment supplying the results of the cubeb backend calls made by
AudioCapture operations: whether cubeb_init succeeds, whether input
device enumeration succeeds and which device names it reports (already
resolved through the friendly_name / device_id fallback of the source),
whether cubeb_stream_init and cubeb_stream_start succeed, the stream
parameters the backend actually grants for the created stream, and
whether cubeb_stream_stop succeeds.  Note that the source never reads
grantedRate / grantedChannels back: cubeb_stream_init treats the
requested parameter struct as input only, and the only post-creation
query the source performs is cubeb_stream_get_latency. -/
structure Env where
  ctxInitOk : Bool
  enumOk : Bool
  devices : List String
  streamInitOk : Bool
  grantedRate : Nat
  grantedChannels : Nat
  streamStartOk : Bool
  streamStopOk : Bool
deriving DecidableEq, Repr

/-- Member variables of AudioCaptureX::AudioCapture.  The pointers
context, stream and inputDeviceId and the std::function callback are
modelled by presence flags; recordedAudio holds the captured float
samples (see the file header). -/
structure CaptureState where
  hasContext : Bool
  hasStream : Bool
  inputDeviceIdSome : Bool
  callbackPresent : Bool
  capturing : Bool
  shouldStop : Bool
  sampleRate : Nat
  channelCount : Nat
  currentDeviceName : String
  inputDeviceIndex : Int
  initialized : Bool
  recordedAudio : List ℚ
  outputFile : String
deriving DecidableEq, Repr

/-- Byte length of the recordedAudio accumulator: each stored 32-bit
float sample occupies sizeof float = 4 bytes of the std::vector<char>. -/
def recordedBytes (s : CaptureState) : Nat :=
  4 * s.recordedAudio.length

/-- AudioCapture::isCapturing, a load of the atomic capturing flag. -/
def isCapturing (s : CaptureState) : Bool :=
  s.capturing

/-- AudioCapture::getSampleRate, a load of the atomic sampleRate. -/
def getSampleRate (s : CaptureState) : Nat :=
  s.sampleRate

/-- AudioCapture::getChannelCount, a load of the atomic channelCount. -/
def getChannelCount (s : CaptureState) : Nat :=
  s.channelCount

/-- Field values set by the member initialiser list of the
AudioCapture constructor, before initializeCubeb runs. -/
def initialState (cb : Bool) : CaptureState :=
  { hasContext := false
    hasStream := false
    inputDeviceIdSome := false
    callbackPresent := cb
    capturing := false
    shouldStop := false
    sampleRate := 0
    channelCount := 0
    currentDeviceName := ""
    inputDeviceIndex := -1
    initialized := false
    recordedAudio := []
    outputFile := "captured-audio.wav" }

/-- AudioCapture::initializeCubeb: cubeb_init, then enumeration of input
devices; on enumeration failure or zero devices the context is destroyed
again; otherwise device 0 becomes the current device and the handle is
marked initialized. -/
def initializeCubeb (env : Env) (s : CaptureState) : Bool × CaptureState :=
  if !env.ctxInitOk then
    (false, s)
  else
    let s1 := { s with hasContext := true }
    if !env.enumOk then
      (false, { s1 with hasContext := false })
    else
      match env.devices with
      | [] => (false, { s1 with hasContext := false })
      | d :: _ =>
        (true,
          { s1 with
            inputDeviceIdSome := true
            currentDeviceName := d
            inputDeviceIndex := 0
            initialized := true })

/-- The AudioCapture constructor: member initialiser list, then
initializeCubeb (whose failure is only logged). -/
def mkAudioCapture (cb : Bool) (env : Env) : CaptureState :=
  (initializeCubeb env (initialState cb)).2

/-- AudioCapture::setInputDevice: guarded by initialization and by the
capturing flag; re-enumerates devices; rejects an out-of-range index;
otherwise installs the chosen device id, index and name. -/
def setInputDevice (env : Env) (deviceIndex : Int) (s : CaptureState) :
    Bool × CaptureState :=
  if !s.initialized || !s.hasContext then
    (false, s)
  else if s.capturing then
    (false, s)
  else if !env.enumOk then
    (false, s)
  else if deviceIndex < 0 || (env.devices.length : Int) ≤ deviceIndex then
    (false, s)
  else
    (true,
      { s with
        inputDeviceIdSome := true
        inputDeviceIndex := deviceIndex
        currentDeviceName := env.devices.getD deviceIndex.toNat "" })

/-- Result of AudioCapture::startCapture: the returned Bool, the state
after the call, and whether cubeb_stream_init was reached (used to
express that degraded handles never attempt stream creation). -/
structure StartResult where
  ok : Bool
  state : CaptureState
  streamInitCalled : Bool
deriving DecidableEq, Repr

/-- Tail of AudioCapture::startCapture after the optional setInputDevice
call: device id presence check, then cubeb_stream_init with the
requested parameters FLOAT32 / 48000 Hz / 2 channels / 4096 frame
latency target; on creation success the source stores input_params.rate
and input_params.channels (the request struct, which the backend does
not modify; the only value queried back is the latency) and clears
recordedAudio, then cubeb_stream_start; on start failure the stream is
destroyed; on start success shouldStop is cleared and capturing set. -/
def startCaptureResolved (env : Env) (s : CaptureState) : StartResult :=
  if !s.inputDeviceIdSome then
    ⟨false, s, false⟩
  else if !env.streamInitOk then
    ⟨false, s, true⟩
  else
    let s2 : CaptureState :=
      { s with
        hasStream := true
        sampleRate := 48000
        channelCount := 2
        recordedAudio := [] }
    if !env.streamStartOk then
      ⟨false, { s2 with hasStream := false }, true⟩
    else
      ⟨true, { s2 with shouldStop := false, capturing := true }, true⟩

/-- AudioCapture::startCapture.  Guards: initialized, not already
capturing; for a nonnegative deviceIndex a failing setInputDevice aborts
the call; the rest is startCaptureResolved. -/
def startCapture (env : Env) (deviceIndex : Int) (s : CaptureState) :
    StartResult :=
  if !s.initialized then
    ⟨false, s, false⟩
  else if s.capturing then
    ⟨false, s, false⟩
  else if 0 ≤ deviceIndex then
    match setInputDevice env deviceIndex s with
    | (false, s1) => ⟨false, s1, false⟩
    | (true, s1) => startCaptureResolved env s1
  else
    startCaptureResolved env s

/-- AudioCapture::stopCapture: early success when not capturing;
otherwise sets shouldStop, issues cubeb_stream_stop when a stream exists
(the backend result env.streamStopOk is only logged), then clears
capturing and returns true. -/
def stopCapture (env : Env) (s : CaptureState) : Bool × CaptureState :=
  if !s.capturing then
    (true, s)
  else
    let s1 := { s with shouldStop := true }
    (true, { s1 with capturing := false })

/-- AudioCapture::getAvailableInputDevices: empty when the handle is not
initialized or has no context, empty when enumeration fails, otherwise
the enumerated device names. -/
def getAvailableInputDevices (env : Env) (s : CaptureState) : List String :=
  if !s.initialized || !s.hasContext then
    []
  else if !env.enumOk then
    []
  else
    env.devices

/-- One recorded invocation of the user callback: the audio data vector,
the frame count, and the sample rate and channel count passed along. -/
def UserCall : Type :=
  List ℚ × Nat × Nat × Nat
deriving instance DecidableEq, Repr for UserCall

/-- AudioCapture::onAudioData: invokes the stored callback, when one is
present, with the data, frame count and current rate and channels. -/
def onAudioData (s : CaptureState) (audioData : List ℚ) (frameCount : Nat) :
    List UserCall :=
  if s.callbackPresent then
    [(audioData, frameCount, s.sampleRate, s.channelCount)]
  else
    []

/-- Result of AudioCapture::dataCallback: the frames-consumed return
value, the state after the call, and the user callback invocations it
performed. -/
structure DataCbResult where
  frames : Nat
  state : CaptureState
  userCalls : List UserCall
deriving DecidableEq, Repr

/-- AudioCapture::dataCallback.  The input buffer is an Option: none
models a null input_buffer pointer and returns 0 at once (the user_ptr
null check cannot fire in this embedding since the state is given).  For
a present buffer the source reads sample_count = nframes * channelCount
floats, appends their bytes to recordedAudio, invokes onAudioData and
returns nframes. -/
def dataCallback (input : Option (List ℚ)) (nframes : Nat)
    (s : CaptureState) : DataCbResult :=
  match input with
  | none => ⟨0, s, []⟩
  | some buf =>
    let sampleCount := nframes * s.channelCount
    let audioData := buf.take sampleCount
    let s1 := { s with recordedAudio := s.recordedAudio ++ audioData }
    ⟨nframes, s1, onAudioData s1 audioData nframes⟩

/-- Clamp of one float sample, from the source line
std::max(-1.0f, std::min(1.0f, floatData[i])). -/
def clampf (x : ℚ) : ℚ :=
  max (-1) (min 1 x)

/-- Truncation toward zero, the semantics of the C++ cast
static_cast<int16_t> applied to a float value whose magnitude is within
the int16_t range. -/
def truncTowardZero (x : ℚ) : Int :=
  if 0 ≤ x then ⌊x⌋ else -⌊-x⌋

/-- The per-sample conversion performed by AudioCapture::saveRecordedAudio:
clamp to the unit interval, multiply by 32767.0f, cast to int16_t. -/
def floatToPcm16 (x : ℚ) : Int :=
  truncTowardZero (clampf x * 32767)

/-- Modelled from the words of the specification of the WAV exporter:
convert every 32-bit float sample to a 16-bit signed PCM sample via
clamp to the interval from -1.0 to 1.0, then scale by 32767, then
truncate toward zero (floor for nonnegative values, ceiling for negative
ones), with no dithering.  Stated independently of the source pipeline
so the two can be compared. -/
def specSampleToPcm (x : ℚ) : Int :=
  let clamped := max (-1) (min 1 x)
  let scaled := clamped * 32767
  if 0 ≤ scaled then ⌊scaled⌋ else ⌈scaled⌉

/-- Environment for saveRecordedAudio: whether drwav_init_file_write
succeeds and whether drwav_write_pcm_frames writes the requested frames
(when not, it reports zero frames written). -/
structure SaveEnv where
  wavOpenOk : Bool
  writeOk : Bool
deriving DecidableEq, Repr

/-- Result of AudioCapture::saveRecordedAudio: the returned Bool,
whether any filesystem access happened (drwav_init_file_write was
invoked), and the call made to the encoder, as the pcm frame count
passed to drwav_write_pcm_frames together with the pcm sample data. -/
structure SaveResult where
  ok : Bool
  fileOpened : Bool
  encoderCall : Option (Nat × List Int)
deriving DecidableEq, Repr

/-- AudioCapture::saveRecordedAudio.  Fails at once on an empty
accumulator, before any filesystem access.  Otherwise converts every
stored float sample with floatToPcm16, opens the WAV file for writing
(failure returns false), and writes pcmData.size / numChannels pcm
frames from the converted samples, failing when zero frames were
written. -/
def saveRecordedAudio (env : SaveEnv) (s : CaptureState) : SaveResult :=
  if s.recordedAudio.isEmpty then
    ⟨false, false, none⟩
  else
    let numChannels := s.channelCount
    let pcmData := s.recordedAudio.map floatToPcm16
    if !env.wavOpenOk then
      ⟨false, true, none⟩
    else
      let framesToWrite := pcmData.length / numChannels
      let framesWritten := if env.writeOk then framesToWrite else 0
      ⟨framesWritten != 0, true, some (framesToWrite, pcmData)⟩

/-- One control-plane call on the handle: startCapture with a device
index, or stopCapture, each together with the backend environment the
call runs against. -/
inductive Op where
  | start (env : Env) (idx : Int)
  | stop (env : Env)
deriving DecidableEq, Repr

/-- Execute one Op, returning the Bool result and the new state. -/
def step : Op → CaptureState → Bool × CaptureState
  | Op.start env idx, s =>
    let r := startCapture env idx s
    (r.ok, r.state)
  | Op.stop env, s => stopCapture env s

/-- Run a sequence of control-plane calls, keeping only the state. -/
def runOps (s : CaptureState) : List Op → CaptureState
  | [] => s
  | o :: rest => runOps (step o s).2 rest

/-- Deliver a list of non-null buffers to dataCallback, nframes frames
each, keeping only the state. -/
def runDeliveries (nframes : Nat) : List (List ℚ) → CaptureState → CaptureState
  | [], s => s
  | b :: rest, s => runDeliveries nframes rest (dataCallback (some b) nframes s).state

/-- A backend environment where every call succeeds, one input device
exists, and the granted parameters equal the requested ones. -/
def envOk : Env :=
  ⟨true, true, ["Built-in Mic"], true, 48000, 2, true, true⟩

/-- A freshly constructed, successfully initialized handle with a user
callback installed. -/
def capOk : CaptureState :=
  mkAudioCapture true envOk

/-- A backend environment whose cubeb_stream_init fails. -/
def envInitFail : Env :=
  { envOk with streamInitOk := false }

/-- A backend environment whose cubeb_stream_init succeeds but whose
cubeb_stream_start fails. -/
def envStartFail : Env :=
  { envOk with streamStartOk := false }

/-- A backend environment granting 44100 Hz mono for the created stream,
different from the requested 48000 Hz stereo. -/
def envGrantsOther : Env :=
  ⟨true, true, ["Built-in Mic"], true, 44100, 1, true, true⟩

/-- A handle initialized against the backend granting 44100 Hz mono. -/
def capOther : CaptureState :=
  mkAudioCapture true envGrantsOther

/-- A backend environment reporting zero input devices, which makes
construction degrade. -/
def envNoDevices : Env :=
  { envOk with devices := [] }

/-- An idle initialized handle holding one recorded sample and stored
stream parameters from an earlier session. -/
def capWithData : CaptureState :=
  { capOk with recordedAudio := [(1 : ℚ)], sampleRate := 44100, channelCount := 1 }

/-- An idle initialized handle holding two recorded samples, one above
the clamp range and one negative fractional value. -/
def capRec : CaptureState :=
  { capOk with
    sampleRate := 48000
    channelCount := 2
    recordedAudio := [(2 : ℚ), (-1 : ℚ)/2] }

/-- Helper: setInputDevice never touches the stream parameters, the
accumulator, the capturing flag or the stream handle. -/
theorem setInputDevice_preserves (env : Env) (i : Int) (s : CaptureState) :
    (setInputDevice env i s).2.sampleRate = s.sampleRate
    ∧ (setInputDevice env i s).2.channelCount = s.channelCount
    ∧ (setInputDevice env i s).2.recordedAudio = s.recordedAudio
    ∧ (setInputDevice env i s).2.capturing = s.capturing
    ∧ (setInputDevice env i s).2.hasStream = s.hasStream
    ∧ (setInputDevice env i s).2.inputDeviceIdSome
        = (s.inputDeviceIdSome || (setInputDevice env i s).1) := by
  unfold setInputDevice
  split_ifs <;> simp

/-- Helper: a failing setInputDevice leaves the state unchanged. -/
theorem setInputDevice_fail (env : Env) (i : Int) (s : CaptureState)
    (h : (setInputDevice env i s).1 = false) :
    (setInputDevice env i s).2 = s := by
  unfold setInputDevice at *
  split_ifs at * <;> simp_all

/-- Helper: the state stored by a successful startCaptureResolved. -/
theorem startCaptureResolved_ok (env : Env) (s : CaptureState)
    (h : (startCaptureResolved env s).ok = true) :
    (startCaptureResolved env s).state.capturing = true
    ∧ (startCaptureResolved env s).state.sampleRate = 48000
    ∧ (startCaptureResolved env s).state.channelCount = 2
    ∧ (startCaptureResolved env s).state.recordedAudio = []
    ∧ (startCaptureResolved env s).state.hasStream = true
    ∧ (startCaptureResolved env s).state.shouldStop = false := by
  unfold startCaptureResolved at *
  split_ifs at * <;> simp_all

/-- Helper: the state stored by a successful startCapture. -/
theorem startCapture_ok_state (env : Env) (i : Int) (s : CaptureState)
    (h : (startCapture env i s).ok = true) :
    (startCapture env i s).state.capturing = true
    ∧ (startCapture env i s).state.sampleRate = 48000
    ∧ (startCapture env i s).state.channelCount = 2
    ∧ (startCapture env i s).state.recordedAudio = []
    ∧ (startCapture env i s).state.hasStream = true
    ∧ (startCapture env i s).state.shouldStop = false := by
  unfold startCapture at h ⊢
  split_ifs at h ⊢
  · rcases hd : setInputDevice env i s with ⟨b, s1⟩
    rw [hd] at h
    cases b
    · simp at h
    · exact startCaptureResolved_ok env s1 h
  · exact startCaptureResolved_ok env s h

/-- Helper: stopCapture always returns true. -/
theorem stopCapture_returns_true (env : Env) (s : CaptureState) :
    (stopCapture env s).1 = true := by
  unfold stopCapture
  split_ifs <;> rfl

/-- Helper: after stopCapture the capturing flag is clear. -/
theorem stopCapture_not_capturing (env : Env) (s : CaptureState) :
    (stopCapture env s).2.capturing = false := by
  unfold stopCapture
  split_ifs <;> simp_all

/-- Helper: stopCapture on a non-capturing handle is the identity. -/
theorem stopCapture_noop (env : Env) (s : CaptureState)
    (h : s.capturing = false) :
    stopCapture env s = (true, s) := by
  simp [stopCapture, h]

/-- Helper: stopCapture never touches the stored stream parameters. -/
theorem stopCapture_preserves_params (env : Env) (s : CaptureState) :
    (stopCapture env s).2.sampleRate = s.sampleRate
    ∧ (stopCapture env s).2.channelCount = s.channelCount := by
  unfold stopCapture
  split_ifs <;> simp

/-- Helper: a delivery of a sufficiently long non-null buffer grows the
accumulator by nframes times channelCount samples and keeps the channel
count, and a run of such deliveries grows it linearly. -/
theorem runDeliveries_spec (F : Nat) (bufs : List (List ℚ))
    (s : CaptureState) (h : ∀ b ∈ bufs, F * s.channelCount ≤ b.length) :
    (runDeliveries F bufs s).channelCount = s.channelCount
    ∧ (runDeliveries F bufs s).recordedAudio.length
        = s.recordedAudio.length + bufs.length * (F * s.channelCount) := by
  induction bufs generalizing s with
  | nil => simp [runDeliveries]
  | cons b rest ih =>
    have hb : F * s.channelCount ≤ b.length := h b (List.mem_cons_self b rest)
    have hrest : ∀ x ∈ rest, F * s.channelCount ≤ x.length :=
      fun x hx => h x (List.mem_cons_of_mem b hx)
    have hch : (dataCallback (some b) F s).state.channelCount
        = s.channelCount := rfl
    have hlen : (dataCallback (some b) F s).state.recordedAudio.length
        = s.recordedAudio.length + F * s.channelCount := by
      simp [dataCallback, List.length_take, Nat.min_eq_left hb]
    have hrun : runDeliveries F (b :: rest) s
        = runDeliveries F rest (dataCallback (some b) F s).state := rfl
    have hrec := ih (dataCallback (some b) F s).state
      (by rw [hch]; exact hrest)
    rw [hrun]
    constructor
    · rw [hrec.1, hch]
    · rw [hrec.2, hch, hlen, List.length_cons]
      ring

/-- Helper: initializeCubeb never touches the stream parameters, the
accumulator or the capturing flag. -/
theorem initializeCubeb_preserves (env : Env) (s : CaptureState) :
    (initializeCubeb env s).2.sampleRate = s.sampleRate
    ∧ (initializeCubeb env s).2.channelCount = s.channelCount
    ∧ (initializeCubeb env s).2.recordedAudio = s.recordedAudio
    ∧ (initializeCubeb env s).2.capturing = s.capturing := by
  unfold initializeCubeb
  split_ifs
  · simp
  · simp
  · rcases hdev : env.devices with _ | ⟨d, rest⟩ <;> simp

/-- Helper: when cubeb_init fails, enumeration fails or no input device
exists, the constructed handle is not initialized. -/
theorem mkAudioCapture_not_initialized (cb : Bool) (env : Env)
    (h : env.ctxInitOk = false ∨ env.enumOk = false ∨ env.devices = []) :
    (mkAudioCapture cb env).initialized = false := by
  unfold mkAudioCapture initializeCubeb initialState
  rcases h with h | h | h <;> split_ifs <;> simp_all

/-- Helper: startCapture on an uninitialized handle fails immediately. -/
theorem startCapture_uninit (env : Env) (idx : Int) (s : CaptureState)
    (h : s.initialized = false) :
    startCapture env idx s = ⟨false, s, false⟩ := by
  simp [startCapture, h]

/-- Helper: setInputDevice on an uninitialized handle fails with the
state unchanged. -/
theorem setInputDevice_uninit (env : Env) (idx : Int) (s : CaptureState)
    (h : s.initialized = false) :
    setInputDevice env idx s = (false, s) := by
  simp [setInputDevice, h]

/-- Helper: getAvailableInputDevices on an uninitialized handle is
empty. -/
theorem getAvailableInputDevices_uninit (env : Env) (s : CaptureState)
    (h : s.initialized = false) :
    getAvailableInputDevices env s = [] := by
  simp [getAvailableInputDevices, h]

/-- Helper: the clamp stage lands in the unit interval. -/
theorem clampf_mem (x : ℚ) : -1 ≤ clampf x ∧ clampf x ≤ 1 := by
  unfold clampf
  exact ⟨le_max_left _ _, max_le (by norm_num) (min_le_left _ _)⟩

/-- Helper: the source conversion pipeline of saveRecordedAudio computes
the conversion worded by the specification. -/
theorem floatToPcm16_eq_spec (x : ℚ) : floatToPcm16 x = specSampleToPcm x := by
  simp only [floatToPcm16, specSampleToPcm, truncTowardZero, clampf]
  split_ifs with h
  · rfl
  · rw [← Int.ceil_neg, neg_neg]

/-- Helper: every converted sample fits the signed 16-bit range. -/
theorem specSampleToPcm_range (x : ℚ) :
    -32767 ≤ specSampleToPcm x ∧ specSampleToPcm x ≤ 32767 := by
  have hlow : (-1 : ℚ) ≤ max (-1) (min 1 x) := le_max_left _ _
  have hhigh : max (-1) (min 1 x) ≤ 1 := max_le (by norm_num) (min_le_left _ _)
  have h1 : max (-1) (min 1 x) * 32767 ≤ 32767 := by nlinarith
  have h2 : (-32767 : ℚ) ≤ max (-1) (min 1 x) * 32767 := by nlinarith
  simp only [specSampleToPcm]
  split_ifs with h
  · constructor
    · exact le_trans (by norm_num) (Int.floor_nonneg.mpr h)
    · calc ⌊max (-1) (min 1 x) * 32767⌋ ≤ ⌊(32767 : ℚ)⌋ := Int.floor_le_floor h1
        _ = 32767 := by norm_num
  · constructor
    · refine Int.le_ceil_iff.mpr ?_
      push_cast
      linarith
    · refine Int.ceil_le.mpr ?_
      push_cast
      linarith

/-- Helper: with stream creation rejected, startCaptureResolved fails
and returns its input state. -/
theorem startCaptureResolved_initFail (env : Env) (t : CaptureState)
    (h : env.streamInitOk = false) :
    (startCaptureResolved env t).ok = false
    ∧ (startCaptureResolved env t).state = t := by
  unfold startCaptureResolved
  split_ifs <;> simp_all

/-- Helper: with stream creation rejected, startCapture fails and the
stream parameters, accumulator, capturing flag and stream handle are as
before the call. -/
theorem startCapture_streamInit_fail (env : Env) (idx : Int)
    (s : CaptureState) (h : env.streamInitOk = false) :
    (startCapture env idx s).ok = false
    ∧ (startCapture env idx s).state.sampleRate = s.sampleRate
    ∧ (startCapture env idx s).state.channelCount = s.channelCount
    ∧ (startCapture env idx s).state.recordedAudio = s.recordedAudio
    ∧ (startCapture env idx s).state.capturing = s.capturing
    ∧ (startCapture env idx s).state.hasStream = s.hasStream := by
  unfold startCapture
  split_ifs
  · simp
  · simp
  · rcases hd : setInputDevice env idx s with ⟨b, s1⟩
    cases b
    · have h2 := setInputDevice_fail env idx s (by rw [hd])
      rw [hd] at h2
      simp only at h2
      subst h2
      simp
    · have hp := setInputDevice_preserves env idx s
      rw [hd] at hp
      simp only at hp
      have hr := startCaptureResolved_initFail env s1 h
      simp [hr.1, hr.2, hp.1, hp.2.1, hp.2.2.1, hp.2.2.2.1, hp.2.2.2.2.1]
  · have hr := startCaptureResolved_initFail env s h
    simp [hr.1, hr.2]

/-- Claim C1: for every sequence of startCapture and stopCapture calls
on one handle, isCapturing returns false after any stopCapture call and
true after any successful startCapture call, regardless of how many
redundant calls precede. -/
theorem isCapturing_after_stop_or_successful_start
    (ops : List Op) (s0 : CaptureState) (o : Op) :
    (∀ e, o = Op.stop e →
      isCapturing (step o (runOps s0 ops)).2 = false)
    ∧ (∀ e i, o = Op.start e i → (step o (runOps s0 ops)).1 = true →
      isCapturing (step o (runOps s0 ops)).2 = true) := by
  constructor
  · rintro e rfl
    exact stopCapture_not_capturing e (runOps s0 ops)
  · rintro e i rfl h
    simp only [step] at h ⊢
    exact (startCapture_ok_state e i (runOps s0 ops) h).1

/-- Claim C1 witness: on the concrete handle, isCapturing is false after
a stop following a successful start, and true right after a successful
start. -/
theorem isCapturing_after_stop_or_successful_start_witness :
    isCapturing (step (Op.stop envOk) (runOps capOk [Op.start envOk (-1)])).2
        = false
    ∧ isCapturing (step (Op.start envOk (-1)) (runOps capOk [])).2 = true :=
  ⟨(isCapturing_after_stop_or_successful_start [Op.start envOk (-1)] capOk
      (Op.stop envOk)).1 envOk rfl,
   (isCapturing_after_stop_or_successful_start [] capOk
      (Op.start envOk (-1))).2 envOk (-1) rfl (by decide)⟩

/-- Claim C2: in a capture session consisting of one successful
startCapture followed by deliveries of non-null buffers holding F frames
each, every delivery returns F as the frames consumed, and after the
deliveries the accumulator holds exactly N times F times C times 4
bytes, N being the number of deliveries and C the channel count stored
by that start (sample width 4 = sizeof float). -/
theorem recordedBytes_after_session
    (env : Env) (idx : Int) (s0 : CaptureState) (F : Nat)
    (bufs : List (List ℚ))
    (hok : (startCapture env idx s0).ok = true)
    (hlen : ∀ b ∈ bufs,
      F * (startCapture env idx s0).state.channelCount ≤ b.length) :
    (∀ (b : List ℚ) (st : CaptureState),
      (dataCallback (some b) F st).frames = F)
    ∧ recordedBytes (runDeliveries F bufs (startCapture env idx s0).state)
        = bufs.length * F * (startCapture env idx s0).state.channelCount * 4 := by
  constructor
  · intro b st
    rfl
  · have hempty : (startCapture env idx s0).state.recordedAudio = [] :=
      (startCapture_ok_state env idx s0 hok).2.2.2.1
    have hrun := runDeliveries_spec F bufs (startCapture env idx s0).state hlen
    unfold recordedBytes
    rw [hrun.2, hempty]
    simp
    ring

/-- Claim C2 witness: one delivery of one frame of two channels after a
successful start leaves 1 * 1 * 2 * 4 = 8 bytes in the accumulator. -/
theorem recordedBytes_after_session_witness :
    recordedBytes
        (runDeliveries 1 [[(1 : ℚ), 0]] (startCapture envOk (-1) capOk).state)
      = 1 * 1 * (startCapture envOk (-1) capOk).state.channelCount * 4 :=
  (recordedBytes_after_session envOk (-1) capOk 1 [[(1 : ℚ), 0]]
    (by decide) (by decide)).2

/-- Claim C3: saveRecordedAudio converts every stored float sample by
clamping to the interval from -1 to 1, scaling by 32767 and truncating
toward zero with no dithering, every converted sample fits the signed
16-bit range, and the encoder is invoked with exactly those samples and
a frame count of one frame per channelCount consecutive samples. -/
theorem saveRecordedAudio_encoder_call (env : SaveEnv) (s : CaptureState)
    (hne : s.recordedAudio ≠ []) (hopen : env.wavOpenOk = true) :
    (saveRecordedAudio env s).encoderCall
      = some ((s.recordedAudio.map specSampleToPcm).length / s.channelCount,
          s.recordedAudio.map specSampleToPcm)
    ∧ ∀ x : ℚ, -32767 ≤ specSampleToPcm x ∧ specSampleToPcm x ≤ 32767 := by
  refine ⟨?_, fun x => specSampleToPcm_range x⟩
  have hfun : floatToPcm16 = specSampleToPcm := funext floatToPcm16_eq_spec
  simp [saveRecordedAudio, hopen, hfun, List.isEmpty_iff, hne]

/-- Claim C3 witness: on a handle holding the samples 2 and -1/2 with
two channels, the encoder receives one frame holding the pcm samples
32767 (clamped) and -16383 (truncated toward zero). -/
theorem saveRecordedAudio_encoder_call_witness :
    (saveRecordedAudio ⟨true, true⟩ capRec).encoderCall
      = some (1, [32767, -16383]) := by
  have h := (saveRecordedAudio_encoder_call ⟨true, true⟩ capRec
    (by simp [capRec]) rfl).1
  rw [h]
  norm_num [capRec, specSampleToPcm, min_def, max_def]
  rw [Int.ceil_eq_iff]
  norm_num

/-- Claim C4: stopCapture is valid from any state: it always returns
true whatever the backend stop outcome, it leaves the state unchanged
when the handle is not capturing, and after it returns the handle is not
capturing. -/
theorem stopCapture_best_effort (env : Env) (s : CaptureState) :
    (stopCapture env s).1 = true
    ∧ (isCapturing s = false → (stopCapture env s).2 = s)
    ∧ isCapturing (stopCapture env s).2 = false :=
  ⟨stopCapture_returns_true env s,
   fun h => by rw [stopCapture_noop env s h],
   stopCapture_not_capturing env s⟩

/-- Claim C4 witness: on the concrete idle handle stopCapture returns
true and changes nothing, also against a backend whose stop call
reports an error. -/
theorem stopCapture_best_effort_witness :
    (stopCapture envStartFail capOk).1 = true
    ∧ (stopCapture envStartFail capOk).2 = capOk :=
  ⟨(stopCapture_best_effort envStartFail capOk).1,
   (stopCapture_best_effort envStartFail capOk).2.1 (by decide)⟩

/-- Claim C5 counterexample: on an idle handle holding one recorded
sample and stored parameters 44100 Hz mono, startCapture against a
backend that creates the stream but rejects the start returns failure,
yet the stored sample rate, channel count and accumulator contents are
not as they were before the call: the source sets the parameters and
clears the accumulator before issuing the stream start. -/
theorem startCapture_start_rejected_changes_state :
    (startCapture envStartFail (-1) capWithData).ok = false
    ∧ ¬((startCapture envStartFail (-1) capWithData).state.recordedAudio
          = capWithData.recordedAudio
        ∧ (startCapture envStartFail (-1) capWithData).state.sampleRate
          = capWithData.sampleRate
        ∧ (startCapture envStartFail (-1) capWithData).state.channelCount
          = capWithData.channelCount) := by
  decide

/-- Claim C5 as amended: when startCapture fails because the backend
rejects stream creation, it returns failure and leaves the stored sample
rate, channel count, accumulator, capturing flag and stream handle as
they were before the call.  When it fails because the backend rejects
the stream start (shown here on the default-device path of an idle
initialized handle), it returns failure, the handle is not running and
the partially created stream is released, but the stored sample rate and
channel count have been set to the requested values 48000 and 2 and the
accumulator has been cleared. -/
theorem startCapture_backend_error_paths (env : Env) (idx : Int)
    (s : CaptureState) :
    (env.streamInitOk = false →
      (startCapture env idx s).ok = false
      ∧ (startCapture env idx s).state.sampleRate = s.sampleRate
      ∧ (startCapture env idx s).state.channelCount = s.channelCount
      ∧ (startCapture env idx s).state.recordedAudio = s.recordedAudio
      ∧ (startCapture env idx s).state.capturing = s.capturing
      ∧ (startCapture env idx s).state.hasStream = s.hasStream)
    ∧ (env.streamInitOk = true → env.streamStartOk = false →
       s.initialized = true → s.capturing = false → idx < 0 →
       s.inputDeviceIdSome = true →
      (startCapture env idx s).ok = false
      ∧ isCapturing (startCapture env idx s).state = false
      ∧ (startCapture env idx s).state.hasStream = false
      ∧ (startCapture env idx s).state.sampleRate = 48000
      ∧ (startCapture env idx s).state.channelCount = 2
      ∧ (startCapture env idx s).state.recordedAudio = []) := by
  constructor
  · intro h
    exact startCapture_streamInit_fail env idx s h
  · intro h1 h2 h3 h4 h5 h6
    have h5n : ¬(0 ≤ idx) := not_le.mpr h5
    simp [startCapture, startCaptureResolved, isCapturing, h1, h2, h3, h4,
      h5n, h6]

/-- Claim C5 amended witness: both backend error paths exercised on the
concrete idle handle holding one recorded sample. -/
theorem startCapture_backend_error_paths_witness :
    ((startCapture envInitFail (-1) capWithData).ok = false
      ∧ (startCapture envInitFail (-1) capWithData).state.recordedAudio
          = capWithData.recordedAudio)
    ∧ ((startCapture envStartFail (-1) capWithData).ok = false
      ∧ (startCapture envStartFail (-1) capWithData).state.recordedAudio
          = []) := by
  refine ⟨⟨?_, ?_⟩, ⟨?_, ?_⟩⟩
  · exact ((startCapture_backend_error_paths envInitFail (-1)
      capWithData).1 rfl).1
  · exact ((startCapture_backend_error_paths envInitFail (-1)
      capWithData).1 rfl).2.2.2.1
  · exact ((startCapture_backend_error_paths envStartFail (-1)
      capWithData).2 rfl rfl (by decide) (by decide) (by decide)
      (by decide)).1
  · exact ((startCapture_backend_error_paths envStartFail (-1)
      capWithData).2 rfl rfl (by decide) (by decide) (by decide)
      (by decide)).2.2.2.2.2

/-- Claim C6 divergence: against a backend granting 44100 Hz mono for
the created stream, a successful startCapture stores 48000 and 2, the
requested default constants, not the granted values: the source assigns
sampleRate and channelCount from its own request struct, which the
backend call does not update, instead of querying the stream. -/
theorem startCapture_stores_requested_constants :
    (startCapture envGrantsOther (-1) capOther).ok = true
    ∧ getSampleRate (startCapture envGrantsOther (-1) capOther).state = 48000
    ∧ getChannelCount (startCapture envGrantsOther (-1) capOther).state = 2
    ∧ envGrantsOther.grantedRate ≠ 48000
    ∧ envGrantsOther.grantedChannels ≠ 2 := by
  decide

/-- Claim C7: dataCallback on a null input buffer returns zero frames
consumed, appends nothing to the accumulator, and performs no user
callback invocation: a no-op, not an error. -/
theorem dataCallback_null_buffer (nframes : Nat) (s : CaptureState) :
    dataCallback none nframes s = ⟨0, s, []⟩ :=
  rfl

/-- Claim C8: saveRecordedAudio on an empty accumulator fails, with no
filesystem access and no encoder invocation. -/
theorem saveRecordedAudio_empty (env : SaveEnv) (s : CaptureState)
    (h : s.recordedAudio = []) :
    saveRecordedAudio env s = ⟨false, false, none⟩ := by
  simp [saveRecordedAudio, h]

/-- Claim C8 witness: a freshly constructed handle has an empty
accumulator and saving fails without touching the filesystem. -/
theorem saveRecordedAudio_empty_witness :
    saveRecordedAudio ⟨true, true⟩ capOk = ⟨false, false, none⟩ :=
  saveRecordedAudio_empty ⟨true, true⟩ capOk (by decide)

/-- Claim C9: getSampleRate and getChannelCount return 0 on a freshly
constructed handle; after a successful startCapture they return the
values stored at that start (48000 and 2); and stopCapture leaves both
unchanged rather than resetting them. -/
theorem stream_params_lifecycle (cb : Bool) (env0 env1 env2 : Env)
    (idx : Int) (s : CaptureState)
    (h : (startCapture env1 idx s).ok = true) :
    getSampleRate (mkAudioCapture cb env0) = 0
    ∧ getChannelCount (mkAudioCapture cb env0) = 0
    ∧ getSampleRate (startCapture env1 idx s).state = 48000
    ∧ getChannelCount (startCapture env1 idx s).state = 2
    ∧ getSampleRate (stopCapture env2 (startCapture env1 idx s).state).2
        = getSampleRate (startCapture env1 idx s).state
    ∧ getChannelCount (stopCapture env2 (startCapture env1 idx s).state).2
        = getChannelCount (startCapture env1 idx s).state := by
  have hmk := initializeCubeb_preserves env0 (initialState cb)
  have hok := startCapture_ok_state env1 idx s h
  have hstop := stopCapture_preserves_params env2 (startCapture env1 idx s).state
  exact ⟨hmk.1, hmk.2.1, hok.2.1, hok.2.2.1, hstop.1, hstop.2⟩

/-- Claim C9 witness: the concrete fresh handle reports 0 and 0, the
successful start stores 48000 and 2, and a stop leaves them stored. -/
theorem stream_params_lifecycle_witness :
    getSampleRate capOk = 0
    ∧ getSampleRate (startCapture envOk (-1) capOk).state = 48000
    ∧ getSampleRate
        (stopCapture envOk (startCapture envOk (-1) capOk).state).2
      = getSampleRate (startCapture envOk (-1) capOk).state :=
  ⟨(stream_params_lifecycle true envOk envOk envOk (-1) capOk (by decide)).1,
   (stream_params_lifecycle true envOk envOk envOk (-1) capOk
     (by decide)).2.2.1,
   (stream_params_lifecycle true envOk envOk envOk (-1) capOk
     (by decide)).2.2.2.2.1⟩

/-- Claim C10: when backend initialization fails during construction
(cubeb_init failure, enumeration failure, or zero input devices), the
handle degrades gracefully: startCapture fails without attempting stream
creation and without changing state, setInputDevice fails without
changing state, and getAvailableInputDevices returns the empty
sequence. -/
theorem degraded_handle_operations (cb : Bool) (env0 env : Env) (idx : Int)
    (h : env0.ctxInitOk = false ∨ env0.enumOk = false ∨ env0.devices = []) :
    (mkAudioCapture cb env0).initialized = false
    ∧ (startCapture env idx (mkAudioCapture cb env0)).ok = false
    ∧ (startCapture env idx (mkAudioCapture cb env0)).streamInitCalled = false
    ∧ (startCapture env idx (mkAudioCapture cb env0)).state
        = mkAudioCapture cb env0
    ∧ (setInputDevice env idx (mkAudioCapture cb env0)).1 = false
    ∧ (setInputDevice env idx (mkAudioCapture cb env0)).2
        = mkAudioCapture cb env0
    ∧ getAvailableInputDevices env (mkAudioCapture cb env0) = [] := by
  have hinit := mkAudioCapture_not_initialized cb env0 h
  have hstart := startCapture_uninit env idx (mkAudioCapture cb env0) hinit
  have hdev := setInputDevice_uninit env idx (mkAudioCapture cb env0) hinit
  refine ⟨hinit, ?_, ?_, ?_, ?_, ?_,
    getAvailableInputDevices_uninit env (mkAudioCapture cb env0) hinit⟩
  · rw [hstart]
  · rw [hstart]
  · rw [hstart]
  · rw [hdev]
  · rw [hdev]

/-- Claim C10 witness: a handle constructed against a backend with zero
input devices is degraded on every subsequent operation. -/
theorem degraded_handle_operations_witness :
    (mkAudioCapture true envNoDevices).initialized = false
    ∧ (startCapture envOk 0 (mkAudioCapture true envNoDevices)).ok = false
    ∧ getAvailableInputDevices envOk (mkAudioCapture true envNoDevices)
        = [] :=
  ⟨(degraded_handle_operations true envNoDevices envOk 0
      (Or.inr (Or.inr rfl))).1,
   (degraded_handle_operations true envNoDevices envOk 0
      (Or.inr (Or.inr rfl))).2.1,
   (degraded_handle_operations true envNoDevices envOk 0
      (Or.inr (Or.inr rfl))).2.2.2.2.2.2⟩

end AudioCaptureX
